import Mathlib

/-!
Shallow embedding of `src/benchmark.py` (Ollama benchmarking script).

Conventions of the embedding:
* Python ints are `Int`; throughput arithmetic (Python float division) is
  modelled exactly over `ℚ`.
* Python division raises `ZeroDivisionError` on a zero divisor, so the
  division used in `inference_stats` is modelled as `pydiv`, returning
  `Option ℚ` (`none` = the raised error).
* A raw server payload (a JSON mapping) is `RawPayload`: every field is
  an `Option`, `none` meaning the key is absent.  `model_validate` is the
  pydantic validation step: required fields must be present, `load_duration`
  defaults to `0`, and `prompt_eval_count` defaults to the sentinel `-1`
  and is passed through the field validator (`validate_default=True`).
  The returned `Bool` records whether the validator printed its warning.
* `datetime` values are abstract here; we model them as `Nat` timestamps.
* Console output relevant to the claims is reified: `average_stats`
  returns the log lines it prints next to its result.
-/

namespace Benchmark

/-- Python class `Message(BaseModel)`: a role/content pair. -/
structure Message where
  role : String
  content : String
deriving DecidableEq, Repr

/-- Python class `OllamaResponse(BaseModel)` after validation.
`created_at` is an abstract timestamp. -/
structure OllamaResponse where
  model : String
  created_at : Nat
  message : Message
  done : Bool
  total_duration : Int
  load_duration : Int
  prompt_eval_count : Int
  prompt_eval_duration : Int
  eval_count : Int
  eval_duration : Int
deriving DecidableEq, Repr

/-- A raw payload from the server, field-by-field: `none` means the key is
absent from the mapping. -/
structure RawPayload where
  model : Option String
  created_at : Option Nat
  message : Option Message
  done : Option Bool
  total_duration : Option Int
  load_duration : Option Int
  prompt_eval_count : Option Int
  prompt_eval_duration : Option Int
  eval_count : Option Int
  eval_duration : Option Int
deriving DecidableEq, Repr

/-- `OllamaResponse.validate_prompt_eval_count`: the sentinel `-1` is
replaced by `0` with a printed warning; any other value passes through.
The `Bool` records whether the warning was printed. -/
def validate_prompt_eval_count (value : Int) : Int × Bool :=
  if value = -1 then (0, true) else (value, false)

/-- Pydantic validation of a raw payload (`OllamaResponse.model_validate`).
Required fields must be present; `load_duration` defaults to `0`;
`prompt_eval_count` defaults to `-1` and is run through
`validate_prompt_eval_count` (`validate_default=True`, and pydantic also
runs field validators on explicitly provided values, e.g. when
`average_stats` constructs a record).  `none` models the raised
`ValidationError`; the `Bool` is the warning flag. -/
def model_validate (p : RawPayload) : Option (OllamaResponse × Bool) := do
  let model ← p.model
  let created_at ← p.created_at
  let message ← p.message
  let done ← p.done
  let total_duration ← p.total_duration
  let load_duration := p.load_duration.getD 0
  let pw := validate_prompt_eval_count (p.prompt_eval_count.getD (-1))
  let prompt_eval_duration ← p.prompt_eval_duration
  let eval_count ← p.eval_count
  let eval_duration ← p.eval_duration
  pure ({ model := model
          created_at := created_at
          message := message
          done := done
          total_duration := total_duration
          load_duration := load_duration
          prompt_eval_count := pw.1
          prompt_eval_duration := prompt_eval_duration
          eval_count := eval_count
          eval_duration := eval_duration }, pw.2)

/-- `nanosec_to_sec(nanosec) = nanosec / 1000000000`, exact over `ℚ`. -/
def nanosec_to_sec (nanosec : Int) : ℚ :=
  (nanosec : ℚ) / 1000000000

/-- Python `/`: raises `ZeroDivisionError` on a zero divisor, modelled as
`none`. -/
def pydiv (a b : ℚ) : Option ℚ :=
  if b = 0 then none else some (a / b)

/-- The throughput formula of the spec,
`tokens_per_second(count, duration_ns) = count / (duration_ns / 1e9)`,
as written in `inference_stats` (unguarded form, exact over `ℚ`). -/
def tokens_per_second (count : Int) (duration_ns : Int) : ℚ :=
  (count : ℚ) / nanosec_to_sec duration_ns

/-- `inference_stats`: the three rates it computes and prints, i.e.
prompt-eval rate, response-eval rate, and the combined rate
(summed counts over summed durations).  `none` models the
`ZeroDivisionError` raised when a divisor is zero. -/
def inference_stats (r : OllamaResponse) : Option (ℚ × ℚ × ℚ) := do
  let prompt_ts ← pydiv (r.prompt_eval_count : ℚ) (nanosec_to_sec r.prompt_eval_duration)
  let response_ts ← pydiv (r.eval_count : ℚ) (nanosec_to_sec r.eval_duration)
  let total_ts ← pydiv ((r.prompt_eval_count : ℚ) + (r.eval_count : ℚ))
      (nanosec_to_sec (r.prompt_eval_duration + r.eval_duration))
  pure (prompt_ts, response_ts, total_ts)

/-- `average_stats`: on an empty list, prints "No stats to average" and
returns nothing; otherwise builds the synthetic summed record (whose
construction re-runs the `prompt_eval_count` field validator, `pw`) and
prints "Average stats:".  Returns (result with warning flag, log lines);
`now` stands for `datetime.now()`. -/
def average_stats (now : Nat) (responses : List OllamaResponse) :
    Option (OllamaResponse × Bool) × List String :=
  match responses with
  | [] => (none, ["No stats to average"])
  | r0 :: _ =>
    let pw := validate_prompt_eval_count
      ((responses.map (fun r => r.prompt_eval_count)).sum)
    (some ({ model := r0.model
             created_at := now
             message := { role := "system"
                          content := "Average stats across " ++
                            toString responses.length ++ " runs" }
             done := true
             total_duration := (responses.map (fun r => r.total_duration)).sum
             load_duration := (responses.map (fun r => r.load_duration)).sum
             prompt_eval_count := pw.1
             prompt_eval_duration := (responses.map (fun r => r.prompt_eval_duration)).sum
             eval_count := (responses.map (fun r => r.eval_count)).sum
             eval_duration := (responses.map (fun r => r.eval_duration)).sum }, pw.2),
     ["Average stats:"])

/-- `run_benchmark`, abstracted over the chat call: `last_element` is the
final chunk (verbose/streaming mode) or the single response (non-streaming);
`none` means the server produced no data at all.  In that case the function
prints a system-error line and returns `None` (`Except.ok none`); a payload
that fails validation raises a `ValidationError` out of the function
(`Except.error`). -/
def run_benchmark (last_element : Option RawPayload) :
    Except String (Option (OllamaResponse × Bool)) :=
  match last_element with
  | none => Except.ok none
  | some p =>
    match model_validate p with
    | none => Except.error "ValidationError"
    | some rw => Except.ok (some rw)

/-- The per-model collection loop of `main` (lines 197-207): for each prompt
it calls `run_benchmark` and appends the result to `responses`
unconditionally — including the `None` returned when the server sent no
data.  `chat` is the server oracle giving the last chunk for a prompt. -/
def collect_responses (chat : String → Option RawPayload) :
    List String → Except String (List (Option OllamaResponse))
  | [] => Except.ok []
  | prompt :: rest => do
    let r ← run_benchmark (chat prompt)
    let rs ← collect_responses chat rest
    pure ((r.map Prod.fst) :: rs)

/-- The data-model invariant of §3 of the spec: non-negative durations and
counts, non-empty message role and content. -/
def ResponseInvariant (r : OllamaResponse) : Prop :=
  0 ≤ r.total_duration ∧ 0 ≤ r.load_duration ∧
  0 ≤ r.prompt_eval_duration ∧ 0 ≤ r.eval_duration ∧
  0 ≤ r.eval_count ∧ 0 ≤ r.prompt_eval_count ∧
  r.message.role ≠ "" ∧ r.message.content ≠ ""

instance (r : OllamaResponse) : Decidable (ResponseInvariant r) := by
  unfold ResponseInvariant; infer_instance

/-! ### Concrete payloads and records used as test vectors -/

/-- A fully populated raw payload (all keys present). -/
def payloadFull : RawPayload :=
  { model := some "llama2"
    created_at := some 0
    message := some { role := "assistant", content := "hello" }
    done := some true
    total_duration := some 2000000000
    load_duration := some 100
    prompt_eval_count := some 50
    prompt_eval_duration := some 1000000000
    eval_count := some 100
    eval_duration := some 1000000000 }

/-- The record `model_validate` produces from `payloadFull`. -/
def recFull : OllamaResponse :=
  { model := "llama2"
    created_at := 0
    message := { role := "assistant", content := "hello" }
    done := true
    total_duration := 2000000000
    load_duration := 100
    prompt_eval_count := 50
    prompt_eval_duration := 1000000000
    eval_count := 100
    eval_duration := 1000000000 }

/-! ### Characterisation of validation -/

/-- Field-by-field description of a successful `model_validate`: required
fields are passed through, `load_duration` takes its absent-default `0`,
and `prompt_eval_count` together with the warning flag is the output of
the field validator applied to the provided value or the `-1` default. -/
theorem model_validate_spec (p : RawPayload) (r : OllamaResponse) (w : Bool)
    (h : model_validate p = some (r, w)) :
    p.model = some r.model ∧ p.created_at = some r.created_at ∧
    p.message = some r.message ∧ p.done = some r.done ∧
    p.total_duration = some r.total_duration ∧
    r.load_duration = p.load_duration.getD 0 ∧
    (r.prompt_eval_count, w) =
      validate_prompt_eval_count (p.prompt_eval_count.getD (-1)) ∧
    p.prompt_eval_duration = some r.prompt_eval_duration ∧
    p.eval_count = some r.eval_count ∧
    p.eval_duration = some r.eval_duration := by
  obtain ⟨om, oca, omsg, od, otd, old, opec, oped, oec, oed⟩ := p
  rcases om with _ | m
  · simp [model_validate] at h
  rcases oca with _ | ca
  · simp [model_validate] at h
  rcases omsg with _ | msg
  · simp [model_validate] at h
  rcases od with _ | dn
  · simp [model_validate] at h
  rcases otd with _ | td
  · simp [model_validate] at h
  rcases oped with _ | ped
  · simp [model_validate] at h
  rcases oec with _ | ec
  · simp [model_validate] at h
  rcases oed with _ | ed
  · simp [model_validate] at h
  simp [model_validate] at h
  obtain ⟨h1, h2⟩ := h
  subst h1
  subst h2
  simp

/-- The field validator never outputs the sentinel itself: a validated
record's `prompt_eval_count` is never `-1`. -/
theorem validate_prompt_eval_count_ne_sentinel (x : Int) :
    (validate_prompt_eval_count x).1 ≠ -1 := by
  unfold validate_prompt_eval_count
  split
  · decide
  · assumption

/-- `inference_stats` only reads the four token/duration fields it divides. -/
theorem inference_stats_congr (a b : OllamaResponse)
    (h1 : a.prompt_eval_count = b.prompt_eval_count)
    (h2 : a.prompt_eval_duration = b.prompt_eval_duration)
    (h3 : a.eval_count = b.eval_count)
    (h4 : a.eval_duration = b.eval_duration) :
    inference_stats a = inference_stats b := by
  unfold inference_stats
  rw [h1, h2, h3, h4]

/-! ### Claim theorems -/

/-- Claim C1: whenever validation succeeds, a `prompt_eval_count` provided
with a value other than `-1` is kept exactly and no warning is emitted,
while an absent `prompt_eval_count` (sentinel `-1`) is replaced by `0`
and the warning is emitted. -/
theorem prompt_eval_count_validation (p : RawPayload) (r : OllamaResponse)
    (w : Bool) (h : model_validate p = some (r, w)) :
    (∀ v : Int, p.prompt_eval_count = some v → v ≠ -1 →
      r.prompt_eval_count = v ∧ w = false) ∧
    (p.prompt_eval_count = none → r.prompt_eval_count = 0 ∧ w = true) := by
  obtain ⟨-, -, -, -, -, -, hpec, -, -, -⟩ := model_validate_spec p r w h
  constructor
  · intro v hv hne
    rw [hv] at hpec
    rw [show (some v).getD (-1) = v from rfl] at hpec
    unfold validate_prompt_eval_count at hpec
    rw [if_neg hne] at hpec
    exact ⟨congrArg Prod.fst hpec, congrArg Prod.snd hpec⟩
  · intro hv
    rw [hv] at hpec
    rw [show (Option.none.getD (-1 : Int)) = -1 from rfl] at hpec
    unfold validate_prompt_eval_count at hpec
    rw [if_pos rfl] at hpec
    exact ⟨congrArg Prod.fst hpec, congrArg Prod.snd hpec⟩

/-- Payload identical to `payloadFull` but with `prompt_eval_count` absent. -/
def payloadNoPec : RawPayload :=
  { payloadFull with prompt_eval_count := none }

/-- Record produced from `payloadNoPec`: the sentinel default was replaced
by `0`. -/
def recNoPec : OllamaResponse :=
  { recFull with prompt_eval_count := 0 }

/-- Witness for C1 at concrete payloads: both the present-value branch and
the absent (sentinel) branch. -/
theorem prompt_eval_count_validation_witness :
    recFull.prompt_eval_count = 50 ∧ recNoPec.prompt_eval_count = 0 := by
  have h1 := prompt_eval_count_validation payloadFull recFull false rfl
  have h2 := prompt_eval_count_validation payloadNoPec recNoPec true rfl
  exact ⟨(h1.1 50 rfl (by decide)).1, (h2.2 rfl).1⟩

/-- Claim C3: on the scenario record (`total_duration` 2s,
`prompt_eval_count` 50 over 1s, `eval_count` 100 over 1s) the computed
rates are 50, 100 and 75 tokens per second. -/
theorem inference_stats_scenario :
    inference_stats recFull = some (50, 100, 75) := by
  norm_num [inference_stats, recFull, pydiv, nanosec_to_sec]

/-- Claim C6: averaging an empty record list produces no record and only
reports the informational "No stats to average" line. -/
theorem average_stats_empty (now : Nat) :
    average_stats now [] = (none, ["No stats to average"]) := rfl

/-- Record with a zero `prompt_eval_duration`: the first division of
`inference_stats` is reached with divisor zero. -/
def recZeroDur : OllamaResponse :=
  { recFull with prompt_eval_duration := 0 }

/-- Claim C8: `inference_stats` has no zero-duration guard: on a record
with `prompt_eval_duration = 0` the division is reached with divisor zero
and raises (no defined rate value is produced). -/
theorem inference_stats_zero_duration :
    ∃ r : OllamaResponse, r.prompt_eval_duration = 0 ∧
      inference_stats r = none := by
  refine ⟨recZeroDur, rfl, ?_⟩
  norm_num [inference_stats, recZeroDur, recFull, pydiv, nanosec_to_sec]

/-- Claim C10: a payload lacking `load_duration` is not rejected: whenever
the rest of the payload validates, the record's `load_duration` is `0`,
and no warning comes from this default (the flag stays `false` whenever
`prompt_eval_count` is provided and not the sentinel). -/
theorem load_duration_default (p : RawPayload) (r : OllamaResponse)
    (w : Bool) (h : model_validate p = some (r, w))
    (hld : p.load_duration = none) :
    r.load_duration = 0 ∧
    (∀ v : Int, p.prompt_eval_count = some v → v ≠ -1 → w = false) := by
  obtain ⟨-, -, -, -, -, hload, hpec, -, -, -⟩ := model_validate_spec p r w h
  constructor
  · rw [hld] at hload
    exact hload
  · intro v hv hne
    rw [hv] at hpec
    rw [show (some v).getD (-1) = v from rfl] at hpec
    unfold validate_prompt_eval_count at hpec
    rw [if_neg hne] at hpec
    exact congrArg Prod.snd hpec

/-- Payload identical to `payloadFull` but with `load_duration` absent. -/
def payloadNoLoad : RawPayload :=
  { payloadFull with load_duration := none }

/-- Record produced from `payloadNoLoad`: `load_duration` defaulted to 0. -/
def recNoLoad : OllamaResponse :=
  { recFull with load_duration := 0 }

/-- Witness for C10 at a concrete payload with `load_duration` absent:
validation succeeds, yields `load_duration = 0`, and warns nothing. -/
theorem load_duration_default_witness :
    recNoLoad.load_duration = 0 ∧ (false : Bool) = false := by
  have h := load_duration_default payloadNoLoad recNoLoad false rfl rfl
  exact ⟨h.1, h.2 50 rfl (by decide)⟩

/-- Unfolding of `average_stats` on a non-empty list: the synthetic record
of field sums, with the summed `prompt_eval_count` re-run through the
field validator. -/
theorem average_stats_cons (now : Nat) (r0 : OllamaResponse)
    (rest : List OllamaResponse) :
    average_stats now (r0 :: rest) =
      (some ({ model := r0.model
               created_at := now
               message := { role := "system"
                            content := "Average stats across " ++
                              toString (r0 :: rest).length ++ " runs" }
               done := true
               total_duration :=
                 ((r0 :: rest).map (fun r => r.total_duration)).sum
               load_duration :=
                 ((r0 :: rest).map (fun r => r.load_duration)).sum
               prompt_eval_count :=
                 (validate_prompt_eval_count
                   (((r0 :: rest).map (fun r => r.prompt_eval_count)).sum)).1
               prompt_eval_duration :=
                 ((r0 :: rest).map (fun r => r.prompt_eval_duration)).sum
               eval_count :=
                 ((r0 :: rest).map (fun r => r.eval_count)).sum
               eval_duration :=
                 ((r0 :: rest).map (fun r => r.eval_duration)).sum },
             (validate_prompt_eval_count
               (((r0 :: rest).map (fun r => r.prompt_eval_count)).sum)).2),
       ["Average stats:"]) := rfl

/-- Claim C2: averaging a non-empty list of records (whose token counts are
non-negative, as the data-model invariant demands of a `ResponseRecord`)
yields a synthetic record with `done = true`, the "average across N runs"
message, and every numeric field the sum of the inputs. -/
theorem average_stats_sums (now : Nat) (responses : List OllamaResponse)
    (hne : responses ≠ [])
    (hpec : ∀ r ∈ responses, 0 ≤ r.prompt_eval_count) :
    ∃ res : OllamaResponse,
      (average_stats now responses).1 = some (res, false) ∧
      res.done = true ∧
      res.message.role = "system" ∧
      res.message.content =
        "Average stats across " ++ toString responses.length ++ " runs" ∧
      res.total_duration = (responses.map (fun r => r.total_duration)).sum ∧
      res.load_duration = (responses.map (fun r => r.load_duration)).sum ∧
      res.prompt_eval_duration =
        (responses.map (fun r => r.prompt_eval_duration)).sum ∧
      res.eval_duration = (responses.map (fun r => r.eval_duration)).sum ∧
      res.prompt_eval_count =
        (responses.map (fun r => r.prompt_eval_count)).sum ∧
      res.eval_count = (responses.map (fun r => r.eval_count)).sum := by
  cases responses with
  | nil => exact absurd rfl hne
  | cons r0 rest =>
    have hsum : 0 ≤ (((r0 :: rest).map (fun r => r.prompt_eval_count)).sum) := by
      refine List.sum_nonneg ?_
      intro x hx
      obtain ⟨r, hr, rfl⟩ := List.mem_map.mp hx
      exact hpec r hr
    have hne1 : (((r0 :: rest).map (fun r => r.prompt_eval_count)).sum) ≠ -1 := by
      intro hc
      rw [hc] at hsum
      norm_num at hsum
    have hpw : validate_prompt_eval_count
        (((r0 :: rest).map (fun r => r.prompt_eval_count)).sum) =
        ((((r0 :: rest).map (fun r => r.prompt_eval_count)).sum), false) := by
      unfold validate_prompt_eval_count
      rw [if_neg hne1]
    refine ⟨{ model := r0.model
              created_at := now
              message := { role := "system"
                           content := "Average stats across " ++
                             toString (r0 :: rest).length ++ " runs" }
              done := true
              total_duration :=
                ((r0 :: rest).map (fun r => r.total_duration)).sum
              load_duration :=
                ((r0 :: rest).map (fun r => r.load_duration)).sum
              prompt_eval_count :=
                ((r0 :: rest).map (fun r => r.prompt_eval_count)).sum
              prompt_eval_duration :=
                ((r0 :: rest).map (fun r => r.prompt_eval_duration)).sum
              eval_count :=
                ((r0 :: rest).map (fun r => r.eval_count)).sum
              eval_duration :=
                ((r0 :: rest).map (fun r => r.eval_duration)).sum },
            ?_, rfl, rfl, rfl, rfl, rfl, rfl, rfl, rfl, rfl⟩
    rw [average_stats_cons, hpw]

/-- Witness for C2 at the one-element list `[recFull]`. -/
theorem average_stats_sums_witness :
    ∃ res : OllamaResponse,
      (average_stats 0 [recFull]).1 = some (res, false) ∧
      res.done = true ∧
      res.message.role = "system" ∧
      res.message.content =
        "Average stats across " ++
          toString ([recFull] : List OllamaResponse).length ++ " runs" ∧
      res.total_duration =
        (([recFull] : List OllamaResponse).map (fun r => r.total_duration)).sum ∧
      res.load_duration =
        (([recFull] : List OllamaResponse).map (fun r => r.load_duration)).sum ∧
      res.prompt_eval_duration =
        (([recFull] : List OllamaResponse).map
          (fun r => r.prompt_eval_duration)).sum ∧
      res.eval_duration =
        (([recFull] : List OllamaResponse).map (fun r => r.eval_duration)).sum ∧
      res.prompt_eval_count =
        (([recFull] : List OllamaResponse).map
          (fun r => r.prompt_eval_count)).sum ∧
      res.eval_count =
        (([recFull] : List OllamaResponse).map (fun r => r.eval_count)).sum :=
  average_stats_sums 0 [recFull] (by decide) (by decide)

/-- `average_stats` on a one-record list whose `prompt_eval_count` is not
the sentinel: all summed fields collapse to the record's own fields. -/
theorem average_stats_singleton (now : Nat) (r : OllamaResponse)
    (hne : r.prompt_eval_count ≠ -1) :
    (average_stats now [r]).1 =
      some ({ model := r.model
              created_at := now
              message := { role := "system"
                           content := "Average stats across " ++
                             toString ([r] : List OllamaResponse).length ++
                             " runs" }
              done := true
              total_duration := r.total_duration
              load_duration := r.load_duration
              prompt_eval_count := r.prompt_eval_count
              prompt_eval_duration := r.prompt_eval_duration
              eval_count := r.eval_count
              eval_duration := r.eval_duration }, false) := by
  have hpw : validate_prompt_eval_count
      ((([r] : List OllamaResponse).map (fun s => s.prompt_eval_count)).sum) =
      (r.prompt_eval_count, false) := by
    simp only [List.map_cons, List.map_nil, List.sum_cons, List.sum_nil,
      add_zero]
    unfold validate_prompt_eval_count
    rw [if_neg hne]
  rw [average_stats_cons, hpw]
  simp

/-- Claim C5: for any record `r` produced by validation, aggregating the
one-element list `[r]` yields a synthetic record whose numeric fields all
equal `r`'s own fields and whose computed rates (`inference_stats`) agree
with `r`'s. -/
theorem single_record_roundtrip (p : RawPayload) (r : OllamaResponse)
    (w : Bool) (now : Nat) (h : model_validate p = some (r, w)) :
    ∃ res : OllamaResponse, ∃ w2 : Bool,
      (average_stats now [r]).1 = some (res, w2) ∧
      res.total_duration = r.total_duration ∧
      res.load_duration = r.load_duration ∧
      res.prompt_eval_count = r.prompt_eval_count ∧
      res.prompt_eval_duration = r.prompt_eval_duration ∧
      res.eval_count = r.eval_count ∧
      res.eval_duration = r.eval_duration ∧
      inference_stats res = inference_stats r := by
  obtain ⟨-, -, -, -, -, -, hpec, -, -, -⟩ := model_validate_spec p r w h
  have hpec1 : r.prompt_eval_count =
      (validate_prompt_eval_count (p.prompt_eval_count.getD (-1))).1 :=
    congrArg Prod.fst hpec
  have hne : r.prompt_eval_count ≠ -1 := by
    rw [hpec1]
    exact validate_prompt_eval_count_ne_sentinel _
  exact ⟨_, _, average_stats_singleton now r hne, rfl, rfl, rfl, rfl, rfl,
    rfl, inference_stats_congr _ r rfl rfl rfl rfl⟩

/-- Witness for C5: the roundtrip at the concrete validated record
`recFull`. -/
theorem single_record_roundtrip_witness :
    ∃ res : OllamaResponse, ∃ w2 : Bool,
      (average_stats 0 [recFull]).1 = some (res, w2) ∧
      res.total_duration = recFull.total_duration ∧
      res.load_duration = recFull.load_duration ∧
      res.prompt_eval_count = recFull.prompt_eval_count ∧
      res.prompt_eval_duration = recFull.prompt_eval_duration ∧
      res.eval_count = recFull.eval_count ∧
      res.eval_duration = recFull.eval_duration ∧
      inference_stats res = inference_stats recFull :=
  single_record_roundtrip payloadFull recFull false 0 rfl

/-- Claim C4: the throughput formula is strictly increasing in the token
count for a fixed positive duration, and strictly decreasing in the
duration for a fixed positive count. -/
theorem tokens_per_second_monotone :
    (∀ d c1 c2 : Int, 0 < d → c1 < c2 →
      tokens_per_second c1 d < tokens_per_second c2 d) ∧
    (∀ c d1 d2 : Int, 0 < c → 0 < d1 → d1 < d2 →
      tokens_per_second c d2 < tokens_per_second c d1) := by
  constructor
  · intro d c1 c2 hd hc
    unfold tokens_per_second nanosec_to_sec
    have hd' : (0 : ℚ) < (d : ℚ) / 1000000000 := by
      apply div_pos
      · exact_mod_cast hd
      · norm_num
    have hc' : (c1 : ℚ) < (c2 : ℚ) := by exact_mod_cast hc
    exact (div_lt_div_iff_of_pos_right hd').mpr hc'
  · intro c d1 d2 hc hd1 hd12
    unfold tokens_per_second nanosec_to_sec
    have hc' : (0 : ℚ) < (c : ℚ) := by exact_mod_cast hc
    have hd1' : (0 : ℚ) < (d1 : ℚ) / 1000000000 := by
      apply div_pos
      · exact_mod_cast hd1
      · norm_num
    have hd12' : (d1 : ℚ) / 1000000000 < (d2 : ℚ) / 1000000000 := by
      apply div_lt_div_of_pos_right ?_ ?_
      · exact_mod_cast hd12
      · norm_num
    exact div_lt_div_of_pos_left hc' hd1' hd12'

/-- Witness for C4: monotone in the count at duration 5, antitone in the
duration at count 3. -/
theorem tokens_per_second_monotone_witness :
    tokens_per_second 2 5 < tokens_per_second 3 5 ∧
    tokens_per_second 3 7 < tokens_per_second 3 5 :=
  ⟨tokens_per_second_monotone.1 5 2 3 (by decide) (by decide),
   tokens_per_second_monotone.2 3 5 7 (by decide) (by decide) (by decide)⟩

/-- Claim C7 (code behaviour at the failing input): when the server sends
no data, `run_benchmark` signals absence (`ok none`), and the `main` loop
appends that `None` to the per-model sequence instead of skipping it, so
the collected sequence is not made of validated records only. -/
theorem no_response_is_appended :
    run_benchmark none = Except.ok none ∧
    collect_responses (fun s => if s = "a" then some payloadFull else none)
      ["a", "b"] = Except.ok [some recFull, none] := by
  constructor
  · rfl
  · rfl

/-- Payload whose provided values break the §3 data-model invariant:
a negative `total_duration`, a negative `eval_count`, and an empty
message role/content — all of which pydantic accepts (the fields are
plain `int`/`str` with no bounds). -/
def payloadBad : RawPayload :=
  { payloadFull with
    total_duration := some (-1)
    eval_count := some (-3)
    message := some { role := "", content := "" } }

/-- The record `model_validate` produces from `payloadBad`. -/
def recBad : OllamaResponse :=
  { recFull with
    total_duration := -1
    eval_count := -3
    message := { role := "", content := "" } }

/-- Counterexample to claim C9 as stated: validation accepts `payloadBad`,
whose record has a negative `total_duration`, a negative `eval_count` and
an empty message role and content — the data-model invariant fails. -/
theorem invariant_not_enforced :
    model_validate payloadBad = some (recBad, false) ∧
    ¬ ResponseInvariant recBad := by
  constructor
  · rfl
  · decide

/-- Claim C9 (amended): validation does not itself enforce the data-model
invariant; the validated record satisfies it exactly when the raw payload
already does — provided durations and counts non-negative (with
`prompt_eval_count` allowed to be the `-1` sentinel, which becomes `0`),
absent `load_duration`/`prompt_eval_count` defaulting to `0`, and a
non-empty message role and content. -/
theorem model_validate_invariant (p : RawPayload) (r : OllamaResponse)
    (w : Bool) (h : model_validate p = some (r, w)) :
    ResponseInvariant r ↔
      ((∀ v : Int, p.total_duration = some v → 0 ≤ v) ∧
       (∀ v : Int, p.load_duration = some v → 0 ≤ v) ∧
       (∀ v : Int, p.prompt_eval_duration = some v → 0 ≤ v) ∧
       (∀ v : Int, p.eval_duration = some v → 0 ≤ v) ∧
       (∀ v : Int, p.eval_count = some v → 0 ≤ v) ∧
       (∀ v : Int, p.prompt_eval_count = some v → 0 ≤ v ∨ v = -1) ∧
       (∀ m : Message, p.message = some m →
         m.role ≠ "" ∧ m.content ≠ "")) := by
  obtain ⟨-, -, hm, -, htd', hload, hpec, hpd', hec', hed'⟩ :=
    model_validate_spec p r w h
  have hpec1 : r.prompt_eval_count =
      (validate_prompt_eval_count (p.prompt_eval_count.getD (-1))).1 :=
    congrArg Prod.fst hpec
  constructor
  · rintro ⟨itd, ild, ipd, ied, iec, ipc, irole, icontent⟩
    refine ⟨?_, ?_, ?_, ?_, ?_, ?_, ?_⟩
    · intro v hv
      injection htd'.symm.trans hv with hv2
      rw [← hv2]
      exact itd
    · intro v hv
      rw [hv] at hload
      simp only [Option.getD_some] at hload
      rw [← hload]
      exact ild
    · intro v hv
      injection hpd'.symm.trans hv with hv2
      rw [← hv2]
      exact ipd
    · intro v hv
      injection hed'.symm.trans hv with hv2
      rw [← hv2]
      exact ied
    · intro v hv
      injection hec'.symm.trans hv with hv2
      rw [← hv2]
      exact iec
    · intro v hv
      by_cases hv1 : v = -1
      · exact Or.inr hv1
      · refine Or.inl ?_
        rw [hv] at hpec1
        simp only [Option.getD_some] at hpec1
        unfold validate_prompt_eval_count at hpec1
        rw [if_neg hv1] at hpec1
        rw [hpec1] at ipc
        exact ipc
    · intro m hmm
      injection hm.symm.trans hmm with hv2
      rw [← hv2]
      exact ⟨irole, icontent⟩
  · rintro ⟨htd, hld, hpd, hed, hec, hpc, hmsg⟩
    refine ⟨htd r.total_duration htd', ?_, hpd r.prompt_eval_duration hpd',
      hed r.eval_duration hed', hec r.eval_count hec',
      ?_, (hmsg r.message hm).1, (hmsg r.message hm).2⟩
    · rw [hload]
      cases hl : p.load_duration with
      | none => simp
      | some v =>
        simp only [Option.getD_some]
        exact hld v hl
    · rw [hpec1]
      cases hp : p.prompt_eval_count with
      | none =>
        simp [validate_prompt_eval_count]
      | some v =>
        simp only [Option.getD_some]
        unfold validate_prompt_eval_count
        rcases hpc v hp with hv | hv
        · have hvne : v ≠ -1 := by
            intro hcon
            rw [hcon] at hv
            norm_num at hv
          rw [if_neg hvne]
          exact hv
        · rw [if_pos hv]

/-- Witness for the amended C9 at the concrete well-formed payload
`payloadFull`: its provided fields meet the bounds, so its validated
record satisfies the invariant. -/
theorem model_validate_invariant_witness :
    ResponseInvariant recFull :=
  (model_validate_invariant payloadFull recFull false rfl).mpr
    ⟨(by intro v hv; injection hv with hv; omega),
     (by intro v hv; injection hv with hv; omega),
     (by intro v hv; injection hv with hv; omega),
     (by intro v hv; injection hv with hv; omega),
     (by intro v hv; injection hv with hv; omega),
     (by intro v hv; injection hv with hv; left; omega),
     (by intro m hm; injection hm with hm; subst hm; constructor <;> decide)⟩

end Benchmark
